import Mathlib

/-!
# archived: metadata repository error mapping, publisher HTML handlers

A shallow embedding of

* `repositories/metadata/metadata.go` (the `Repository` interface and `ErrNotFound`),
* `repositories/metadata/postgresql/postgresql.go` (`mapSQLErrors`),
* `presenter/publisher/html/handlers.go` (the five handlers),

Go conventions used throughout:

* a value of the interface type `error` is a `GoError`; the constructor `GoError.nil` is the
  nil interface value, sentinel errors are constructors of their own, and `==` on two
  error values is equality of constructors (Go compares the dynamic type and the pointer);
* a Go function returning `(T, error)` becomes a function returning `T × GoError`;
* `uint64` values are natural numbers, reduced modulo `2 ^ 64` where Go arithmetic can wrap;
* a Go `string` is a `String`; code that walks over the bytes of a string walks over its
  characters, and a character outside ASCII takes the branch each of its bytes would take.
-/

namespace Archived

/-! ## Errors -/

/-- The two reasons a `*strconv.NumError` carries: `strconv.ErrSyntax` and
`strconv.ErrRange`. -/
inductive NumErrKind where
  | ErrSyntax
  | ErrRange
  deriving DecidableEq, Repr

/-- A value of the Go interface type `error`. -/
inductive GoError where
  /-- The nil interface value. -/
  | nil
  /-- The sentinel `sql.ErrNoRows` of `database/sql`. -/
  | sqlErrNoRows
  /-- The sentinel `metadata.ErrNotFound` (`metadata.go`, line 9). -/
  | metadataErrNotFound
  /-- The sentinel `service.ErrNotFound` that the handlers compare against. -/
  | serviceErrNotFound
  /-- A non-nil `*echo.HTTPError` with its `Code` and message. -/
  | httpError (code : Int) (message : String)
  /-- A `*strconv.NumError` for function `fn` and input `num`. -/
  | numError (fn : String) (num : String) (kind : NumErrKind)
  /-- A `url.EscapeError`. -/
  | escapeError (s : String)
  /-- An error that wraps another one (`fmt.Errorf` with `%w`, `errors.Wrap`). -/
  | wrapped (message : String) (cause : GoError)
  /-- Any other error value, identified by its message. -/
  | other (message : String)
  deriving DecidableEq, Repr

/-! ## `repositories/metadata/postgresql/postgresql.go` -/

/-- The function `mapSQLErrors` of `postgresql.go`: a `switch` on the error value with the
single case `sql.ErrNoRows`. -/
def mapSQLErrors (err : GoError) : GoError :=
  match err with
  | .sqlErrNoRows => .metadataErrNotFound
  | _ => err

/-! ## `strconv.ParseUint`, as the handlers call it -/

/-- The modulus of `uint64` arithmetic, `2 ^ 64`. -/
abbrev uint64Mod : Nat := 18446744073709551616

/-- The constant `maxUint64` of `strconv`: `1<<64 - 1`. -/
abbrev maxUint64 : Nat := 18446744073709551615

/-- The helper `lower` of `strconv`: `c | ('x' - 'X')`, on the code of a character. -/
def lower (c : Nat) : Nat := c ||| 0x20

/-- The helper `syntaxError` of `strconv`. -/
def syntaxError (fn str : String) : GoError := .numError fn str .ErrSyntax

/-- The helper `rangeError` of `strconv`. -/
def rangeError (fn str : String) : GoError := .numError fn str .ErrRange

/-- The digit loop of `strconv.ParseUint` for a base between 2 and 36 (so `base0` is false
and the underscore case never fires): `n` is the accumulator, `cutoff` the smallest number
with `cutoff * base > maxUint64`, and `maxVal` the largest value of the bit size. -/
def parseUintLoop (s0 : String) (base cutoff maxVal : Nat) : List Char → Nat → Nat × GoError
  | [], n => (n, .nil)
  | c :: cs, n =>
    let d? : Option Nat :=
      if 48 ≤ c.toNat ∧ c.toNat ≤ 57 then some (c.toNat - 48)
      else if 97 ≤ lower c.toNat ∧ lower c.toNat ≤ 122 then some (lower c.toNat - 97 + 10)
      else none
    match d? with
    | none => (0, syntaxError "ParseUint" s0)
    | some d =>
      if d ≥ base then (0, syntaxError "ParseUint" s0)
      else if n ≥ cutoff then (maxVal, rangeError "ParseUint" s0)
      else
        let n := (n * base) % uint64Mod
        let n1 := (n + d) % uint64Mod
        if n1 < n ∨ n1 > maxVal then (maxVal, rangeError "ParseUint" s0)
        else parseUintLoop s0 base cutoff maxVal cs n1

/-- The call `strconv.ParseUint(s, 10, 64)`: base 10 is a valid base, the bit size 64 is in
range, `cutoff = maxUint64/10 + 1` and `maxVal = uint64(1)<<64 - 1`, which wraps to
`maxUint64`. -/
def ParseUint (s : String) : Nat × GoError :=
  if s = "" then (0, syntaxError "ParseUint" s)
  else parseUintLoop s 10 (maxUint64 / 10 + 1) ((0 + uint64Mod - 1) % uint64Mod) s.toList 0

/-! ## `presenter/publisher/html/handlers.go` -/

/-- The constant `notFoundTemplateFilename`. -/
def notFoundTemplateFilename : String := "404.html"

/-- The constant `serverErrorTemplateFilename`. -/
def serverErrorTemplateFilename : String := "5xx.html"

/-- What a handler reads from its `echo.Context`: `Param` gives a path parameter and
`QueryParam` a query parameter, each the empty string when absent. -/
structure Context where
  Param : String → String
  QueryParam : String → String

/-- The four methods of `service.Publisher` that the handlers call. The interface is
declared outside the files at hand, so an implementation is a parameter of every handler;
`V` stands for `models.Version`, which the handlers only pass on. -/
structure Publisher (V : Type) where
  ListContainers : List String × GoError
  ListPublishedVersionsByPage : String → Nat → Nat × List V × GoError
  ListObjectsByPage : String → String → Nat → Nat × List String × GoError
  GetObjectURL : String → String → String → String × GoError

/-- A call a handler makes on the service, with its arguments. -/
inductive Call where
  | ListContainers
  | ListPublishedVersionsByPage (container : String) (page : Nat)
  | ListObjectsByPage (container version : String) (page : Nat)
  | GetObjectURL (container version key : String)
  deriving DecidableEq, Repr

/-- The `data` value handed to the renderer: `none` is `nil`, the other constructors are
the local `data` structs of the handlers, field by field. -/
inductive TemplateData (V : Type) where
  | none
  | containerList (Title : String) (Containers : List String)
  | versionList (Title : String) (CurrentPage PagesCount : Nat) (Container : String)
      (Versions : List V)
  | objectList (Title : String) (CurrentPage PagesCount : Nat) (Container Version : String)
      (Objects : List String)
  | errorPage (Code : Int) (Message : String)

/-- How a handler ends: `return c.Render(code, name, data)`, `return c.Redirect(code, url)`
or `return err` with a non-nil error. -/
inductive Response (V : Type) where
  | render (code : Int) (name : String) (data : TemplateData V)
  | redirect (code : Int) (url : String)
  | fail (err : GoError)

/-- A run of a handler: the service calls it made, in order, and how it ended. -/
structure Result (V : Type) where
  calls : List Call
  response : Response V

/-- The handler `ContainerIndex`. -/
def ContainerIndex {V : Type} (svc : Publisher V) (_c : Context) : Result V :=
  let (containers, err) := svc.ListContainers
  if err ≠ .nil then
    ⟨[.ListContainers], .fail err⟩
  else
    ⟨[.ListContainers], .render 200 "container-list.html"
      (.containerList "Container index" containers)⟩

/-- The handler `VersionIndex`. -/
def VersionIndex {V : Type} (svc : Publisher V) (c : Context) : Result V :=
  let container := c.Param "container"
  let pageParam := c.QueryParam "page"
  let page : Nat := 1
  let page :=
    if pageParam ≠ "" then
      let (page, err) := ParseUint pageParam
      if err ≠ .nil then 1 else page
    else page
  let (pagesCount, versions, err) := svc.ListPublishedVersionsByPage container page
  let calls := [Call.ListPublishedVersionsByPage container page]
  if err ≠ .nil then
    if err = .serviceErrNotFound then
      ⟨calls, .render 404 notFoundTemplateFilename .none⟩
    else ⟨calls, .fail err⟩
  else
    ⟨calls, .render 200 "version-list.html"
      (.versionList ("Version index (" ++ container ++ ")") page pagesCount container
        versions)⟩

/-- The handler `ObjectIndex`. -/
def ObjectIndex {V : Type} (svc : Publisher V) (c : Context) : Result V :=
  let container := c.Param "container"
  let version := c.Param "version"
  let pageParam := c.QueryParam "page"
  let page : Nat := 1
  let page :=
    if pageParam ≠ "" then
      let (page, err) := ParseUint pageParam
      if err ≠ .nil then 1 else page
    else page
  let (pagesCount, objects, err) := svc.ListObjectsByPage container version page
  let calls := [Call.ListObjectsByPage container version page]
  if err ≠ .nil then
    if err = .serviceErrNotFound then
      ⟨calls, .render 404 notFoundTemplateFilename .none⟩
    else ⟨calls, .fail err⟩
  else
    ⟨calls, .render 200 "object-list.html"
      (.objectList ("Object index (" ++ container ++ "/" ++ version ++ ")") page pagesCount
        container version objects)⟩

/-- The handler `GetObject`. The library function `url.PathUnescape` is the parameter
`PathUnescape`. -/
def GetObject {V : Type} (PathUnescape : String → String × GoError) (svc : Publisher V)
    (c : Context) : Result V :=
  let container := c.Param "container"
  let version := c.Param "version"
  let objectParam := c.Param "object"
  let (key, err) := PathUnescape objectParam
  if err ≠ .nil then
    ⟨[], .fail err⟩
  else
    let (url, err) := svc.GetObjectURL container version key
    let calls := [Call.GetObjectURL container version key]
    if err ≠ .nil then
      if err = .serviceErrNotFound then
        ⟨calls, .render 404 notFoundTemplateFilename .none⟩
      else ⟨calls, .fail err⟩
    else
      ⟨calls, .redirect 302 url⟩

/-- The handler `ErrorHandler`, as the one `c.Render` call it makes. The type assertion
`err.(*echo.HTTPError)` succeeds exactly on `GoError.httpError`; the library function
`http.StatusText` is the parameter `StatusText`. -/
def ErrorHandler {V : Type} (StatusText : Int → String) (err : GoError) : Response V :=
  let code : Int := 500
  let templateFilename := serverErrorTemplateFilename
  let (code, templateFilename) :=
    match err with
    | .httpError vCode _ =>
      let code := vCode
      if vCode = 404 then ((404 : Int), notFoundTemplateFilename)
      else (code, templateFilename)
    | _ => (code, templateFilename)
  .render code templateFilename (.errorPage code (StatusText code))

/-! ## The metadata repository behind `metadata.Repository`

`metadata.go` declares the interface and `blobs_test.go` exercises it; the PostgreSQL
methods themselves are not among the files at hand. The store and the operations below
follow sections 3 and 4 of the specification. -/

/-- Modelled from the spec: the two states of a version (section 3); the schema is not among
the files at hand. -/
inductive VersionState where
  | Draft
  | Published
  deriving DecidableEq, Repr

/-- Modelled from the spec: a version (section 3), as a row: owning container, identifier,
state. -/
structure VersionRow where
  container : String
  id : String
  state : VersionState
  deriving DecidableEq, Repr

/-- Modelled from the spec: an object (section 3), as a row: the identity
`(container, version, key)` and the checksum of the blob it refers to. -/
structure ObjectRow where
  container : String
  version : String
  key : String
  blobRef : String
  deriving DecidableEq, Repr

/-- Modelled from the spec: a blob (section 3), as a row: checksum, size in bytes, media
type. -/
structure BlobRow where
  checksum : String
  size : Nat
  mimeType : String
  deriving DecidableEq, Repr

/-- Modelled from the spec: the persistent state of the repository, one list of rows per
entity of section 3; the schema is not among the files at hand. -/
structure Store where
  containers : List String
  versions : List VersionRow
  objects : List ObjectRow
  blobs : List BlobRow
  deriving DecidableEq, Repr

/-- The empty repository. -/
def Store.empty : Store := ⟨[], [], [], []⟩

/-- Modelled from the spec: the choices the specification leaves to the implementation
(section 9): whether
publishing a published version is an error, and whether creating an existing object key
is an error (otherwise the new reference replaces the old one). -/
structure Policy where
  republishFails : Bool
  recreateObjectFails : Bool

/-- The container `name` exists. -/
def Store.hasContainer (s : Store) (name : String) : Prop := name ∈ s.containers

/-- The version `version` exists in `container`, in any state. -/
def Store.hasVersion (s : Store) (container version : String) : Prop :=
  ∃ v ∈ s.versions, v.container = container ∧ v.id = version

/-- The version `version` exists in `container` and is Published. -/
def Store.hasPublishedVersion (s : Store) (container version : String) : Prop :=
  ∃ v ∈ s.versions, v.container = container ∧ v.id = version ∧ v.state = .Published

/-- An object with key `key` exists in `version` of `container`. -/
def Store.hasObject (s : Store) (container version key : String) : Prop :=
  ∃ o ∈ s.objects, o.container = container ∧ o.version = version ∧ o.key = key

/-- A blob with checksum `checksum` exists. -/
def Store.hasBlob (s : Store) (checksum : String) : Prop :=
  ∃ b ∈ s.blobs, b.checksum = checksum

/-- The deduplication invariant of the blob ledger: no two blob rows share a checksum. -/
def Store.blobsUnique (s : Store) : Prop := (s.blobs.map (fun b => b.checksum)).Nodup

/-- Whether a version row is the version `version` of `container`. -/
def VersionRow.isAt (v : VersionRow) (container version : String) : Bool :=
  decide (v.container = container) && decide (v.id = version)

/-- Whether an object row is the object `key` in `version` of `container`. -/
def ObjectRow.isAt (o : ObjectRow) (container version key : String) : Bool :=
  decide (o.container = container) && decide (o.version = version) && decide (o.key = key)

/-- Modelled from the spec: the method `CreateContainer` of the PostgreSQL repository,
which is not among the files at hand. It fails when the name is taken and otherwise
creates an empty container (section 4.1). -/
def CreateContainer (s : Store) (name : String) : Store × GoError :=
  if s.containers.contains name then (s, .other "already exists")
  else ({ s with containers := s.containers ++ [name] }, .nil)

/-- Modelled from the spec: the method `CreateVersion` of the PostgreSQL repository, which
is not among the files at hand. It fails with `ErrNotFound` when the container is absent;
otherwise it allocates the identifier `newID`, supplied by the injected identifier source,
in state Draft and returns it (section 4.2). An identifier already used in the container
violates uniqueness and is an unexpected error (section 7). -/
def CreateVersion (s : Store) (newID : String) (container : String) :
    Store × String × GoError :=
  if !s.containers.contains container then (s, "", .metadataErrNotFound)
  else if s.versions.any (fun v => v.isAt container newID) then
    (s, "", .other "version identifier already in use")
  else ({ s with versions := s.versions ++ [⟨container, newID, .Draft⟩] }, newID, .nil)

/-- Modelled from the spec: the method `MarkVersionPublished` of the PostgreSQL repository,
which is not among the files at hand. It fails with `ErrNotFound` when the version does not
exist and otherwise moves it to Published (section 4.2); publishing a published version
follows `pol.republishFails`. -/
def MarkVersionPublished (pol : Policy) (s : Store) (container version : String) :
    Store × GoError :=
  match s.versions.find? (fun v => v.isAt container version) with
  | none => (s, .metadataErrNotFound)
  | some v =>
    if v.state = .Published ∧ pol.republishFails = true then
      (s, .other "version already published")
    else
      ({ s with versions := s.versions.map (fun w =>
          if w.isAt container version then { w with state := .Published } else w) }, .nil)

/-- Modelled from the spec: the method `CreateBLOB` of the PostgreSQL repository, which is
not among the files at hand. An insert-if-absent keyed by the checksum: when a blob with
the checksum exists the call succeeds and alters nothing, otherwise it stores the blob
(section 4.4). -/
def CreateBLOB (s : Store) (checksum : String) (size : Nat) (mimeType : String) :
    Store × GoError :=
  if s.blobs.any (fun b => decide (b.checksum = checksum)) then (s, .nil)
  else ({ s with blobs := s.blobs ++ [⟨checksum, size, mimeType⟩] }, .nil)

/-- Modelled from the spec: the method `CreateObject` of the PostgreSQL repository, which
is not among the files at hand. It fails with `ErrNotFound` when the container or the
version is absent and with a referential-integrity failure when the checksum names no
blob; a key that already exists in the version follows `pol.recreateObjectFails`
(section 4.3). -/
def CreateObject (pol : Policy) (s : Store) (container version key casKey : String) :
    Store × GoError :=
  if !s.containers.contains container ∨
      !s.versions.any (fun v => v.isAt container version) then
    (s, .metadataErrNotFound)
  else if !s.blobs.any (fun b => decide (b.checksum = casKey)) then
    (s, .other "referential integrity: unknown blob")
  else if s.objects.any (fun o => o.isAt container version key) then
    if pol.recreateObjectFails then (s, .other "object already exists")
    else
      ({ s with objects := s.objects.map (fun o =>
          if o.isAt container version key then { o with blobRef := casKey } else o) }, .nil)
  else ({ s with objects := s.objects ++ [⟨container, version, key, casKey⟩] }, .nil)

/-- Modelled from the spec: the row query of `GetBlobKeyByObject`, which is not among the
files at hand. One check over the three tables (section 4.3): the object rows with the
given identity whose container exists and whose version is Published. Like a
`QueryRowContext` followed by `Scan`, it gives the first such row, or `sql.ErrNoRows` when
there is none. -/
def queryBlobKeyByObject (s : Store) (container version key : String) : String × GoError :=
  let rows := s.objects.filter (fun o =>
    o.isAt container version key && s.containers.contains container &&
      s.versions.any (fun v => v.isAt container version && decide (v.state = .Published)))
  match rows with
  | [] => ("", .sqlErrNoRows)
  | o :: _ => (o.blobRef, .nil)

/-- Modelled from the spec: the method `GetBlobKeyByObject` of the PostgreSQL repository,
which is not among the files at hand: the row query above, its error passed through
`mapSQLErrors`. -/
def GetBlobKeyByObject (s : Store) (container version key : String) : String × GoError :=
  let (casKey, err) := queryBlobKeyByObject s container version key
  if err ≠ .nil then ("", mapSQLErrors err)
  else (casKey, .nil)

/-! ## Reading of a decimal `uint64`, stated without the parser -/

/-- The character is one of `0` to `9`. -/
def isAsciiDigit (c : Char) : Prop := 48 ≤ c.toNat ∧ c.toNat ≤ 57

instance (c : Char) : Decidable (isAsciiDigit c) := by
  unfold isAsciiDigit; infer_instance

/-- The value of a run of decimal digits read after the accumulator `acc`. -/
def decimalValue (acc : Nat) (cs : List Char) : Nat :=
  cs.foldl (fun a c => a * 10 + (c.toNat - 48)) acc

/-- The string `s` parses as the base-10 unsigned 64-bit integer `n`: it is a non-empty run
of decimal digits, with no sign, whose value is `n` and at most `2 ^ 64 - 1`. -/
def ParsesAsUint64 (s : String) (n : Nat) : Prop :=
  s ≠ "" ∧ (∀ c ∈ s.toList, isAsciiDigit c) ∧ decimalValue 0 s.toList = n ∧ n ≤ maxUint64

/-- The page number that lines 65 to 75 of `VersionIndex`, and likewise lines 106 to 116 of
`ObjectIndex`, compute from the `page` query parameter. -/
def requestedPage (pageParam : String) : Nat :=
  if pageParam ≠ "" then
    if (ParseUint pageParam).2 ≠ .nil then 1 else (ParseUint pageParam).1
  else 1

instance (s : String) (n : Nat) : Decidable (ParsesAsUint64 s n) := by
  unfold ParsesAsUint64; infer_instance

instance (s : Store) (name : String) : Decidable (s.hasContainer name) := by
  unfold Store.hasContainer; infer_instance

instance (s : Store) (container version : String) :
    Decidable (s.hasVersion container version) := by
  unfold Store.hasVersion; infer_instance

instance (s : Store) (container version : String) :
    Decidable (s.hasPublishedVersion container version) := by
  unfold Store.hasPublishedVersion; infer_instance

instance (s : Store) (container version key : String) :
    Decidable (s.hasObject container version key) := by
  unfold Store.hasObject; infer_instance

instance (s : Store) (checksum : String) : Decidable (s.hasBlob checksum) := by
  unfold Store.hasBlob; infer_instance

instance (s : Store) : Decidable s.blobsUnique := by
  unfold Store.blobsUnique; infer_instance

/-- A choice of policy: publishing twice and creating an existing key are both allowed. -/
def lenientPolicy : Policy := ⟨false, false⟩

/-- The checksum used by `TestBlobs`. -/
def testChecksum : String :=
  "deadbeefdeadbeefdeadbeefdeadbeefdeadbeefdeadbeefdeadbeefdeadbeef"

/-- The repository `TestBlobs` has built when it calls `GetBlobKeyByObject`, up to the
state of the version: a container, one version in it, one blob, one object under the
version. -/
def testStore (state : VersionState) : Store :=
  ⟨["test-container"], [⟨"test-container", "2024-01-02T01:02:03Z", state⟩],
    [⟨"test-container", "2024-01-02T01:02:03Z", "test-object.txt", testChecksum⟩],
    [⟨testChecksum, 15, "text/plain"⟩]⟩

/-! ## `url.PathUnescape`, on ASCII strings -/

/-- The helper `ishex` of `net/url`. -/
def ishex (c : Char) : Bool :=
  (48 ≤ c.toNat && c.toNat ≤ 57) || (97 ≤ c.toNat && c.toNat ≤ 102) ||
    (65 ≤ c.toNat && c.toNat ≤ 70)

/-- The helper `unhex` of `net/url`. -/
def unhex (c : Char) : Nat :=
  if 48 ≤ c.toNat ∧ c.toNat ≤ 57 then c.toNat - 48
  else if 97 ≤ c.toNat ∧ c.toNat ≤ 102 then c.toNat - 97 + 10
  else if 65 ≤ c.toNat ∧ c.toNat ≤ 70 then c.toNat - 65 + 10
  else 0

/-- The first loop of `unescape` of `net/url` in mode `encodePathSegment`: the first
malformed escape, cut to three characters, if there is one. -/
def malformedEscape : List Char → Option (List Char)
  | [] => none
  | '%' :: a :: b :: rest =>
    if ishex a && ishex b then malformedEscape rest else some ['%', a, b]
  | '%' :: rest => some ('%' :: rest)
  | _ :: rest => malformedEscape rest

/-- The second loop of `unescape` of `net/url` in mode `encodePathSegment`: every escape
becomes the character with the code `unhex(a)<<4 | unhex(b)`, everything else is copied. -/
def writeUnescaped : List Char → List Char
  | [] => []
  | '%' :: a :: b :: rest => Char.ofNat (unhex a * 16 + unhex b) :: writeUnescaped rest
  | c :: rest => c :: writeUnescaped rest

/-- The function `url.PathUnescape` on a string of ASCII characters whose escapes decode
to ASCII characters. -/
def PathUnescape (s : String) : String × GoError :=
  match malformedEscape s.toList with
  | some bad => ("", .escapeError (String.mk bad))
  | none => (String.mk (writeUnescaped s.toList), .nil)

/-! ## Concrete requests and services -/

/-- A request for container `docs`, version `v1`, object `object`, with the given `page`
query parameter. -/
def requestWith (object page : String) : Context where
  Param := fun name =>
    if name = "container" then "docs"
    else if name = "version" then "v1"
    else if name = "object" then object
    else ""
  QueryParam := fun name => if name = "page" then page else ""

/-- A service whose four methods all return the error `err` with zero values. -/
def failingPublisher (err : GoError) : Publisher String where
  ListContainers := ([], err)
  ListPublishedVersionsByPage := fun _ _ => (0, [], err)
  ListObjectsByPage := fun _ _ _ => (0, [], err)
  GetObjectURL := fun _ _ _ => ("", err)

/-- A service that lists nothing on one page and resolves every object to one address. -/
def emptyPublisher : Publisher String where
  ListContainers := ([], .nil)
  ListPublishedVersionsByPage := fun _ _ => (1, [], .nil)
  ListObjectsByPage := fun _ _ _ => (1, [], .nil)
  GetObjectURL := fun _ _ key => ("https://blobs.example/" ++ key, .nil)

/-! ## Theorems -/

theorem decimalValue_ge (cs : List Char) (acc : Nat) : acc ≤ decimalValue acc cs := by
  induction cs generalizing acc with
  | nil => simp [decimalValue]
  | cons c cs ih =>
    have h := ih (acc * 10 + (c.toNat - 48))
    simp only [decimalValue, List.foldl_cons] at h ⊢
    omega

theorem parseUintLoop_nil_iff (s0 : String) (cs : List Char) (n v : Nat)
    (hn : n ≤ 18446744073709551615) :
    parseUintLoop s0 10 1844674407370955162 18446744073709551615 cs n = (v, .nil) ↔
      (∀ c ∈ cs, isAsciiDigit c) ∧ decimalValue n cs = v ∧ v ≤ 18446744073709551615 := by
  induction cs generalizing n with
  | nil =>
    simp only [parseUintLoop, decimalValue, List.foldl_nil, List.not_mem_nil, Prod.mk.injEq,
      and_true, false_implies, implies_true, true_and]
    constructor
    · intro h; subst h; exact ⟨rfl, hn⟩
    · intro h; exact h.1
  | cons c cs ih =>
    have hge := decimalValue_ge cs (n * 10 + (c.toNat - 48))
    have hval : decimalValue n (c :: cs) = decimalValue (n * 10 + (c.toNat - 48)) cs := by
      simp [decimalValue]
    rw [hval]
    by_cases hd : 48 ≤ c.toNat ∧ c.toNat ≤ 57
    · have hdig : isAsciiDigit c := hd
      have h4 : ¬ (c.toNat - 48 ≥ 10) := by omega
      by_cases hcut : 1844674407370955162 ≤ n
      · simp only [parseUintLoop, hd, and_self, if_true, h4, if_false, ge_iff_le, hcut,
          rangeError, Prod.mk.injEq, reduceCtorEq, and_false, false_iff, not_and]
        intro _ hv
        omega
      · by_cases hov : n * 10 + (c.toNat - 48) ≤ 18446744073709551615
        · have h1 : n * 10 % 18446744073709551616 = n * 10 := by omega
          have h2 : (n * 10 + (c.toNat - 48)) % 18446744073709551616
              = n * 10 + (c.toNat - 48) := by omega
          have h3 : ¬ (n * 10 + (c.toNat - 48) < n * 10 ∨
              n * 10 + (c.toNat - 48) > 18446744073709551615) := by omega
          simp only [parseUintLoop, hd, and_self, if_true, h4, if_false, ge_iff_le, hcut,
            uint64Mod, h1, h2, h3]
          rw [ih _ hov]
          simp [hdig]
        · have h1 : n * 10 % 18446744073709551616 = n * 10 := by omega
          have h3 : ((n * 10 + (c.toNat - 48)) % 18446744073709551616 < n * 10 ∨
              (n * 10 + (c.toNat - 48)) % 18446744073709551616 > 18446744073709551615) := by
            omega
          simp only [parseUintLoop, hd, and_self, if_true, h4, if_false, ge_iff_le, hcut,
            uint64Mod, h1, h3, rangeError, Prod.mk.injEq, reduceCtorEq, and_false, false_iff,
            not_and]
          intro _ hv
          omega
    · have hnd : ¬ isAsciiDigit c := hd
      have hfalse : ¬ (∀ a ∈ c :: cs, isAsciiDigit a) := by
        intro h; exact hnd (h c (List.mem_cons_self _ _))
      by_cases hl : 97 ≤ lower c.toNat ∧ lower c.toNat ≤ 122
      · have h4 : lower c.toNat - 97 + 10 ≥ 10 := by omega
        simp only [parseUintLoop, hd, if_false, hl, and_self, if_true, h4, syntaxError,
          Prod.mk.injEq, reduceCtorEq, and_false, false_iff]
        exact fun h => hfalse h.1
      · simp only [parseUintLoop, hd, if_false, hl, syntaxError,
          Prod.mk.injEq, reduceCtorEq, and_false, false_iff]
        exact fun h => hfalse h.1

/-- The call `strconv.ParseUint(s, 10, 64)` succeeds with `n` exactly when `s` is a
non-empty run of decimal digits of value `n`, at most `2 ^ 64 - 1`. -/
theorem ParseUint_nil_iff (s : String) (n : Nat) :
    ParseUint s = (n, .nil) ↔ ParsesAsUint64 s n := by
  unfold ParseUint ParsesAsUint64
  by_cases hs : s = ""
  · simp [hs, syntaxError]
  · simp only [hs, if_false, ne_eq, not_false_eq_true, true_and]
    have e1 : maxUint64 / 10 + 1 = 1844674407370955162 := by decide
    have e2 : (0 + uint64Mod - 1) % uint64Mod = 18446744073709551615 := by decide
    rw [e1, e2]
    exact parseUintLoop_nil_iff s s.toList 0 n (by decide)

/-! ### `mapSQLErrors` -/

/-- C3, as stated, fails at `metadata.ErrNotFound`: `mapSQLErrors` returns
`metadata.ErrNotFound` for it although the argument is not `sql.ErrNoRows`. -/
theorem mapSQLErrors_errNotFound_argument :
    mapSQLErrors .metadataErrNotFound = .metadataErrNotFound ∧
      GoError.metadataErrNotFound ≠ .sqlErrNoRows ∧
      ¬ (mapSQLErrors .metadataErrNotFound = .metadataErrNotFound ↔
          GoError.metadataErrNotFound = .sqlErrNoRows) := by
  decide

/-- C3, amended: `mapSQLErrors` maps `sql.ErrNoRows` to `metadata.ErrNotFound` and returns
every other argument unchanged, an error that wraps `sql.ErrNoRows` included; so its result
is `metadata.ErrNotFound` exactly when the argument is `sql.ErrNoRows` or is
`metadata.ErrNotFound` already. -/
theorem mapSQLErrors_cases (err : GoError) :
    mapSQLErrors .sqlErrNoRows = .metadataErrNotFound ∧
      (err ≠ .sqlErrNoRows → mapSQLErrors err = err) ∧
      (∀ msg, mapSQLErrors (.wrapped msg .sqlErrNoRows) = .wrapped msg .sqlErrNoRows) ∧
      (mapSQLErrors err = .metadataErrNotFound ↔
        err = .sqlErrNoRows ∨ err = .metadataErrNotFound) := by
  refine ⟨rfl, ?_, fun _ => rfl, ?_⟩
  · intro h
    cases err <;> first | rfl | exact absurd rfl h
  · cases err <;> simp [mapSQLErrors]

/-- The amended C3 at an error that wraps `sql.ErrNoRows`: it comes back unchanged. -/
theorem mapSQLErrors_cases_witness :
    GoError.wrapped "scan" .sqlErrNoRows ≠ .sqlErrNoRows ∧
      mapSQLErrors (.wrapped "scan" .sqlErrNoRows) = .wrapped "scan" .sqlErrNoRows :=
  ⟨by decide, (mapSQLErrors_cases (.wrapped "scan" .sqlErrNoRows)).2.1 (by decide)⟩

/-- C10: the result of `mapSQLErrors` is nil exactly when its argument is nil, and applying
it twice gives the same as applying it once. -/
theorem mapSQLErrors_nil_iff_and_idempotent (err : GoError) :
    (mapSQLErrors err = .nil ↔ err = .nil) ∧
      mapSQLErrors (mapSQLErrors err) = mapSQLErrors err := by
  cases err <;> simp [mapSQLErrors]

/-! ### The `page` query parameter -/

theorem VersionIndex_eq {V : Type} (svc : Publisher V) (c : Context) :
    VersionIndex svc c =
      ⟨[.ListPublishedVersionsByPage (c.Param "container") (requestedPage (c.QueryParam "page"))],
        if (svc.ListPublishedVersionsByPage (c.Param "container")
            (requestedPage (c.QueryParam "page"))).2.2 ≠ .nil then
          if (svc.ListPublishedVersionsByPage (c.Param "container")
              (requestedPage (c.QueryParam "page"))).2.2 = .serviceErrNotFound then
            .render 404 "404.html" .none
          else .fail (svc.ListPublishedVersionsByPage (c.Param "container")
              (requestedPage (c.QueryParam "page"))).2.2
        else .render 200 "version-list.html"
          (.versionList ("Version index (" ++ c.Param "container" ++ ")")
            (requestedPage (c.QueryParam "page"))
            (svc.ListPublishedVersionsByPage (c.Param "container")
              (requestedPage (c.QueryParam "page"))).1
            (c.Param "container")
            (svc.ListPublishedVersionsByPage (c.Param "container")
              (requestedPage (c.QueryParam "page"))).2.1)⟩ := by
  simp only [VersionIndex, requestedPage, notFoundTemplateFilename]
  split_ifs <;> rfl

theorem ObjectIndex_eq {V : Type} (svc : Publisher V) (c : Context) :
    ObjectIndex svc c =
      ⟨[.ListObjectsByPage (c.Param "container") (c.Param "version")
          (requestedPage (c.QueryParam "page"))],
        if (svc.ListObjectsByPage (c.Param "container") (c.Param "version")
            (requestedPage (c.QueryParam "page"))).2.2 ≠ .nil then
          if (svc.ListObjectsByPage (c.Param "container") (c.Param "version")
              (requestedPage (c.QueryParam "page"))).2.2 = .serviceErrNotFound then
            .render 404 "404.html" .none
          else .fail (svc.ListObjectsByPage (c.Param "container") (c.Param "version")
              (requestedPage (c.QueryParam "page"))).2.2
        else .render 200 "object-list.html"
          (.objectList
            ("Object index (" ++ c.Param "container" ++ "/" ++ c.Param "version" ++ ")")
            (requestedPage (c.QueryParam "page"))
            (svc.ListObjectsByPage (c.Param "container") (c.Param "version")
              (requestedPage (c.QueryParam "page"))).1
            (c.Param "container") (c.Param "version")
            (svc.ListObjectsByPage (c.Param "container") (c.Param "version")
              (requestedPage (c.QueryParam "page"))).2.1)⟩ := by
  simp only [ObjectIndex, requestedPage, notFoundTemplateFilename]
  split_ifs <;> rfl

theorem requestedPage_of_parses (p : String) (n : Nat) (h : ParsesAsUint64 p n) :
    requestedPage p = n := by
  have hp := (ParseUint_nil_iff p n).2 h
  have hne : p ≠ "" := h.1
  simp [requestedPage, hne, hp]

theorem requestedPage_of_not_parses (p : String) (h : p = "" ∨ ¬ ∃ n, ParsesAsUint64 p n) :
    requestedPage p = 1 := by
  unfold requestedPage
  by_cases hp : p = ""
  · simp [hp]
  · have hn : ¬ ∃ n, ParsesAsUint64 p n := h.resolve_left hp
    have herr : (ParseUint p).2 ≠ .nil := by
      intro he
      exact hn ⟨(ParseUint p).1, (ParseUint_nil_iff p _).1 (Prod.ext rfl he)⟩
    simp [hp, herr]

/-- C4: when the `page` query parameter is empty or does not parse as a base-10 unsigned
64-bit integer, `VersionIndex` and `ObjectIndex` call the service with page 1 and return no
error of their own (an error they return is the one the service gave for page 1); when it
parses as `n`, they call the service with page `n`. -/
theorem page_parameter_forgiving {V : Type} (svc : Publisher V) (c : Context) :
    ((c.QueryParam "page" = "" ∨ ¬ ∃ n, ParsesAsUint64 (c.QueryParam "page") n) →
      (VersionIndex svc c).calls = [.ListPublishedVersionsByPage (c.Param "container") 1] ∧
      (ObjectIndex svc c).calls =
        [.ListObjectsByPage (c.Param "container") (c.Param "version") 1] ∧
      (∀ e, (VersionIndex svc c).response = .fail e →
        e = (svc.ListPublishedVersionsByPage (c.Param "container") 1).2.2) ∧
      (∀ e, (ObjectIndex svc c).response = .fail e →
        e = (svc.ListObjectsByPage (c.Param "container") (c.Param "version") 1).2.2)) ∧
    (∀ n, ParsesAsUint64 (c.QueryParam "page") n →
      (VersionIndex svc c).calls = [.ListPublishedVersionsByPage (c.Param "container") n] ∧
      (ObjectIndex svc c).calls =
        [.ListObjectsByPage (c.Param "container") (c.Param "version") n]) := by
  constructor
  · intro h
    have hp := requestedPage_of_not_parses _ h
    rw [VersionIndex_eq, ObjectIndex_eq, hp]
    refine ⟨rfl, rfl, ?_, ?_⟩
    · intro e he
      simp only at he
      split_ifs at he
      exact (Response.fail.inj he).symm
    · intro e he
      simp only at he
      split_ifs at he
      exact (Response.fail.inj he).symm
  · intro n h
    have hp := requestedPage_of_parses _ n h
    rw [VersionIndex_eq, ObjectIndex_eq, hp]
    exact ⟨rfl, rfl⟩

/-- C4 at the parameters `abc`, `-3` and `18446744073709551616` (none parses: page 1) and at
`18446744073709551615` (parses: that page). -/
theorem page_parameter_forgiving_witness :
    (VersionIndex emptyPublisher (requestWith "" "abc")).calls
        = [.ListPublishedVersionsByPage "docs" 1] ∧
      (ObjectIndex emptyPublisher (requestWith "" "-3")).calls
        = [.ListObjectsByPage "docs" "v1" 1] ∧
      (VersionIndex emptyPublisher (requestWith "" "18446744073709551616")).calls
        = [.ListPublishedVersionsByPage "docs" 1] ∧
      (ObjectIndex emptyPublisher (requestWith "" "18446744073709551615")).calls
        = [.ListObjectsByPage "docs" "v1" 18446744073709551615] :=
  ⟨((page_parameter_forgiving emptyPublisher (requestWith "" "abc")).1
      (Or.inr (by
        rintro ⟨n, _, hd, _⟩
        exact absurd (hd 'a' (by decide)) (by decide)))).1,
    ((page_parameter_forgiving emptyPublisher (requestWith "" "-3")).1
      (Or.inr (by
        rintro ⟨n, _, hd, _⟩
        exact absurd (hd '-' (by decide)) (by decide)))).2.1,
    ((page_parameter_forgiving emptyPublisher (requestWith "" "18446744073709551616")).1
      (Or.inr (by
        rintro ⟨n, _, _, hv, hle⟩
        have h0 : decimalValue 0 "18446744073709551616".toList = 18446744073709551616 := by
          decide
        have h1 : decimalValue 0 "18446744073709551616".toList = n := hv
        have h2 : n ≤ 18446744073709551615 := hle
        omega))).1,
    ((page_parameter_forgiving emptyPublisher (requestWith "" "18446744073709551615")).2
      18446744073709551615 (by decide)).2⟩

/-- C7, as stated, fails at `page=0`: the parameter parses, so both handlers pass page 0 to
the service, which is not at least 1. -/
theorem page_zero_is_passed_on :
    (VersionIndex emptyPublisher (requestWith "" "0")).calls
        = [.ListPublishedVersionsByPage "docs" 0] ∧
      (ObjectIndex emptyPublisher (requestWith "" "0")).calls
        = [.ListObjectsByPage "docs" "v1" 0] ∧
      ¬ (∀ container page, Call.ListPublishedVersionsByPage container page ∈
          (VersionIndex emptyPublisher (requestWith "" "0")).calls → 1 ≤ page) := by
  refine ⟨by decide, by decide, ?_⟩
  intro h
  exact absurd (h "docs" 0 (by decide)) (by decide)

/-- C7, amended: for every value of the `page` query parameter that does not parse as the
number 0, the page number `VersionIndex` and `ObjectIndex` pass to the service is at
least 1. -/
theorem page_at_least_one_unless_zero {V : Type} (svc : Publisher V) (c : Context)
    (h : ¬ ParsesAsUint64 (c.QueryParam "page") 0) :
    ∃ page, 1 ≤ page ∧
      (VersionIndex svc c).calls = [.ListPublishedVersionsByPage (c.Param "container") page] ∧
      (ObjectIndex svc c).calls =
        [.ListObjectsByPage (c.Param "container") (c.Param "version") page] := by
  refine ⟨requestedPage (c.QueryParam "page"), ?_, ?_, ?_⟩
  · by_cases hp : ∃ n, ParsesAsUint64 (c.QueryParam "page") n
    · obtain ⟨n, hn⟩ := hp
      rw [requestedPage_of_parses _ n hn]
      rcases Nat.eq_zero_or_pos n with h0 | h0
      · exact absurd (h0 ▸ hn) h
      · exact h0
    · rw [requestedPage_of_not_parses _ (Or.inr hp)]
  · rw [VersionIndex_eq]
  · rw [ObjectIndex_eq]

/-- The amended C7 at `page=2` and at the malformed `page=two`. -/
theorem page_at_least_one_unless_zero_witness :
    (∃ page, 1 ≤ page ∧
      (VersionIndex emptyPublisher (requestWith "" "2")).calls
        = [.ListPublishedVersionsByPage "docs" page] ∧
      (ObjectIndex emptyPublisher (requestWith "" "2")).calls
        = [.ListObjectsByPage "docs" "v1" page]) ∧
    (∃ page, 1 ≤ page ∧
      (VersionIndex emptyPublisher (requestWith "" "two")).calls
        = [.ListPublishedVersionsByPage "docs" page] ∧
      (ObjectIndex emptyPublisher (requestWith "" "two")).calls
        = [.ListObjectsByPage "docs" "v1" page]) :=
  ⟨page_at_least_one_unless_zero emptyPublisher (requestWith "" "2") (by decide),
    page_at_least_one_unless_zero emptyPublisher (requestWith "" "two") (by decide)⟩

/-! ### The not-found outcome -/

/-- The three handlers that test for `service.ErrNotFound` render status 404 with
`404.html` when the service call returns it. -/
theorem notFound_rendered_404 {V : Type} (PathUnescape : String → String × GoError)
    (svc : Publisher V) (c : Context) :
    ((svc.ListPublishedVersionsByPage (c.Param "container")
        (requestedPage (c.QueryParam "page"))).2.2 = .serviceErrNotFound →
      (VersionIndex svc c).response = .render 404 "404.html" .none) ∧
    ((svc.ListObjectsByPage (c.Param "container") (c.Param "version")
        (requestedPage (c.QueryParam "page"))).2.2 = .serviceErrNotFound →
      (ObjectIndex svc c).response = .render 404 "404.html" .none) ∧
    (∀ key, PathUnescape (c.Param "object") = (key, .nil) →
      (svc.GetObjectURL (c.Param "container") (c.Param "version") key).2
        = .serviceErrNotFound →
      (GetObject PathUnescape svc c).response = .render 404 "404.html" .none) := by
  refine ⟨?_, ?_, ?_⟩
  · intro h; rw [VersionIndex_eq]; simp [h]
  · intro h; rw [ObjectIndex_eq]; simp [h]
  · intro key hk h
    simp [GetObject, hk, h, notFoundTemplateFilename]

/-- C5 fails for `ContainerIndex`: when `ListContainers` returns `service.ErrNotFound` the
handler returns that error instead of rendering 404 with `404.html`, and `ErrorHandler`
then renders it as status 500 with `5xx.html`. -/
theorem ContainerIndex_returns_notFound {V : Type} (svc : Publisher V) (c : Context)
    (StatusText : Int → String) (h : svc.ListContainers.2 = .serviceErrNotFound) :
    (ContainerIndex svc c).response = .fail .serviceErrNotFound ∧
      (ContainerIndex svc c).response ≠ .render 404 "404.html" .none ∧
      ErrorHandler StatusText .serviceErrNotFound
        = (.render 500 "5xx.html" (.errorPage 500 (StatusText 500)) : Response V) := by
  have hr : (ContainerIndex svc c).response = .fail .serviceErrNotFound := by
    simp [ContainerIndex, h]
  refine ⟨hr, ?_, rfl⟩
  rw [hr]
  exact fun h => Response.noConfusion h

/-- The `ContainerIndex` case at a service whose `ListContainers` returns
`service.ErrNotFound`. -/
theorem ContainerIndex_returns_notFound_witness :
    (ContainerIndex (failingPublisher .serviceErrNotFound) (requestWith "" "")).response
        = .fail .serviceErrNotFound ∧
      (ContainerIndex (failingPublisher .serviceErrNotFound) (requestWith "" "")).response
        ≠ .render 404 "404.html" .none ∧
      ErrorHandler (fun _ => "Internal Server Error") .serviceErrNotFound
        = (.render 500 "5xx.html" (.errorPage 500 "Internal Server Error") :
            Response String) :=
  ContainerIndex_returns_notFound (failingPublisher .serviceErrNotFound) (requestWith "" "")
    (fun _ => "Internal Server Error") rfl

/-! ### `ErrorHandler` and `GetObject` -/

/-- C8: for an error that is not an `*echo.HTTPError`, `ErrorHandler` renders status 500
with `5xx.html`; for an `*echo.HTTPError` with code `code` it renders status `code`, with
`404.html` exactly when `code = 404` and `5xx.html` otherwise; the message is the status
text of the rendered code. -/
theorem ErrorHandler_renders {V : Type} (StatusText : Int → String) (err : GoError) :
    ((∀ code message, err ≠ .httpError code message) →
      ErrorHandler StatusText err
        = (.render 500 "5xx.html" (.errorPage 500 (StatusText 500)) : Response V)) ∧
    (∀ code message, err = .httpError code message →
      ErrorHandler StatusText err
        = (.render code (if code = 404 then "404.html" else "5xx.html")
            (.errorPage code (StatusText code)) : Response V)) := by
  constructor
  · intro h
    cases err with
    | httpError code message => exact absurd rfl (h code message)
    | _ => rfl
  · intro code message h
    subst h
    by_cases hc : code = 404
    · subst hc; rfl
    · simp [ErrorHandler, hc, serverErrorTemplateFilename]

/-- C8 at a plain error, at an `*echo.HTTPError` with code 404 and at one with code 400. -/
theorem ErrorHandler_renders_witness :
    ErrorHandler (fun _ => "text") (.other "connection refused")
        = (.render 500 "5xx.html" (.errorPage 500 "text") : Response String) ∧
      ErrorHandler (fun _ => "text") (.httpError 404 "Not Found")
        = (.render 404 "404.html" (.errorPage 404 "text") : Response String) ∧
      ErrorHandler (fun _ => "text") (.httpError 400 "Bad Request")
        = (.render 400 "5xx.html" (.errorPage 400 "text") : Response String) :=
  ⟨(ErrorHandler_renders (fun _ => "text") (.other "connection refused")).1
      (fun _ _ h => GoError.noConfusion h),
    (ErrorHandler_renders (fun _ => "text") (.httpError 404 "Not Found")).2 404 "Not Found"
      rfl,
    (ErrorHandler_renders (fun _ => "text") (.httpError 400 "Bad Request")).2 400
      "Bad Request" rfl⟩

/-- C9: when `url.PathUnescape` fails on the `object` path parameter, `GetObject` returns
the decoding error and calls nothing on the service; otherwise it calls `GetObjectURL`
with the decoded key and, when that succeeds, redirects with status 302 to the very string
the service returned. -/
theorem GetObject_decodes_then_redirects {V : Type}
    (PathUnescape : String → String × GoError) (svc : Publisher V) (c : Context) :
    ((PathUnescape (c.Param "object")).2 ≠ .nil →
      GetObject PathUnescape svc c = ⟨[], .fail (PathUnescape (c.Param "object")).2⟩) ∧
    (∀ key, PathUnescape (c.Param "object") = (key, .nil) →
      (GetObject PathUnescape svc c).calls =
        [.GetObjectURL (c.Param "container") (c.Param "version") key] ∧
      ∀ url, svc.GetObjectURL (c.Param "container") (c.Param "version") key = (url, .nil) →
        (GetObject PathUnescape svc c).response = .redirect 302 url) := by
  constructor
  · intro h
    simp [GetObject, h]
  · intro key hk
    constructor
    · simp only [GetObject, hk]
      split_ifs <;> first | rfl | simp_all
    · intro url hu
      simp [GetObject, hk, hu]

/-- C9 at the malformed parameter `%zz` and at `a%20b.txt`, decoded by `url.PathUnescape`. -/
theorem GetObject_decodes_then_redirects_witness :
    GetObject PathUnescape emptyPublisher (requestWith "%zz" "")
        = ⟨[], .fail (.escapeError "%zz")⟩ ∧
      (GetObject PathUnescape emptyPublisher (requestWith "a%20b.txt" "")).calls
        = [.GetObjectURL "docs" "v1" "a b.txt"] ∧
      (GetObject PathUnescape emptyPublisher (requestWith "a%20b.txt" "")).response
        = .redirect 302 "https://blobs.example/a b.txt" :=
  ⟨(GetObject_decodes_then_redirects PathUnescape emptyPublisher (requestWith "%zz" "")).1
      (by decide),
    ((GetObject_decodes_then_redirects PathUnescape emptyPublisher
      (requestWith "a%20b.txt" "")).2 "a b.txt" (by decide)).1,
    ((GetObject_decodes_then_redirects PathUnescape emptyPublisher
      (requestWith "a%20b.txt" "")).2 "a b.txt" (by decide)).2
      "https://blobs.example/a b.txt" (by decide)⟩

/-! ### The metadata repository -/

theorem queryBlobKeyByObject_noRows (s : Store) (container version key : String)
    (h : ¬ (s.hasContainer container ∧ s.hasPublishedVersion container version ∧
      s.hasObject container version key)) :
    queryBlobKeyByObject s container version key = ("", .sqlErrNoRows) := by
  unfold queryBlobKeyByObject
  have hnil : s.objects.filter (fun o =>
      o.isAt container version key && s.containers.contains container &&
        s.versions.any (fun v => v.isAt container version && decide (v.state = .Published)))
      = [] := by
    rw [List.filter_eq_nil_iff]
    intro o ho hp
    apply h
    simp only [Bool.and_eq_true, List.any_eq_true, decide_eq_true_eq, ObjectRow.isAt,
      VersionRow.isAt, List.contains_iff_exists_mem_beq, beq_iff_eq] at hp
    obtain ⟨⟨⟨⟨h1, h2⟩, h3⟩, c, hc, hcc⟩, v, hv, ⟨hv1, hv2⟩, hv3⟩ := hp
    exact ⟨hcc ▸ hc, ⟨v, hv, hv1, hv2, hv3⟩, ⟨o, ho, h1, h2, h3⟩⟩
  rw [hnil]

/-- C1: in every state of the repository where it is not the case that the container
exists, the version exists in it and is Published, and an object with the key exists in
the version, `GetBlobKeyByObject` fails with exactly `metadata.ErrNotFound`. -/
theorem GetBlobKeyByObject_errNotFound (s : Store) (container version key : String)
    (h : ¬ (s.hasContainer container ∧ s.hasPublishedVersion container version ∧
      s.hasObject container version key)) :
    GetBlobKeyByObject s container version key = ("", .metadataErrNotFound) := by
  simp [GetBlobKeyByObject, queryBlobKeyByObject_noRows s container version key h,
    mapSQLErrors]

/-- C1 on the four states of `TestGetBlobKeyByObjectErrors` (nothing exists; only the
container; a draft version; the version published, the key absent) and on a draft version
under which the object exists. -/
theorem GetBlobKeyByObject_errNotFound_witness :
    GetBlobKeyByObject Store.empty "container" "version" "key"
        = ("", .metadataErrNotFound) ∧
      GetBlobKeyByObject (CreateContainer Store.empty "container").1 "container" "version"
        "key" = ("", .metadataErrNotFound) ∧
      GetBlobKeyByObject
        (CreateVersion (CreateContainer Store.empty "container").1 "2024-01-02T01:02:03Z"
          "container").1 "container" "2024-01-02T01:02:03Z" "key"
        = ("", .metadataErrNotFound) ∧
      GetBlobKeyByObject
        (MarkVersionPublished lenientPolicy
          (CreateVersion (CreateContainer Store.empty "container").1 "2024-01-02T01:02:03Z"
            "container").1 "container" "2024-01-02T01:02:03Z").1
        "container" "2024-01-02T01:02:03Z" "key" = ("", .metadataErrNotFound) ∧
      (testStore .Draft).hasObject "test-container" "2024-01-02T01:02:03Z"
        "test-object.txt" ∧
      GetBlobKeyByObject (testStore .Draft) "test-container" "2024-01-02T01:02:03Z"
        "test-object.txt" = ("", .metadataErrNotFound) :=
  ⟨GetBlobKeyByObject_errNotFound _ _ _ _ (by decide),
    GetBlobKeyByObject_errNotFound _ _ _ _ (by decide),
    GetBlobKeyByObject_errNotFound _ _ _ _ (by decide),
    GetBlobKeyByObject_errNotFound _ _ _ _ (by decide),
    by decide,
    GetBlobKeyByObject_errNotFound _ _ _ _ (by decide)⟩

/-- C2: starting from the empty repository, once `CreateContainer`, `CreateVersion`,
`CreateBLOB`, `CreateObject` and `MarkVersionPublished` have all succeeded,
`GetBlobKeyByObject` succeeds and returns the checksum given to `CreateObject`. -/
theorem GetBlobKeyByObject_after_publish (pol : Policy)
    (container key checksum mimeType newID version : String) (size : Nat)
    (s1 s2 s3 s4 s5 : Store)
    (h1 : CreateContainer Store.empty container = (s1, .nil))
    (h2 : CreateVersion s1 newID container = (s2, version, .nil))
    (h3 : CreateBLOB s2 checksum size mimeType = (s3, .nil))
    (h4 : CreateObject pol s3 container version key checksum = (s4, .nil))
    (h5 : MarkVersionPublished pol s4 container version = (s5, .nil)) :
    GetBlobKeyByObject s5 container version key = (checksum, .nil) := by
  simp only [CreateContainer, Store.empty, List.contains_nil, Bool.false_eq_true, if_false,
    List.nil_append, Prod.mk.injEq, and_true] at h1
  subst h1
  simp [CreateVersion, VersionRow.isAt] at h2
  obtain ⟨h2, hv⟩ := h2
  subst h2 hv
  simp [CreateBLOB] at h3
  subst h3
  simp [CreateObject, VersionRow.isAt] at h4
  subst h4
  simp [MarkVersionPublished, VersionRow.isAt] at h5
  subst h5
  simp [GetBlobKeyByObject, queryBlobKeyByObject, ObjectRow.isAt, VersionRow.isAt]

/-- C2 on the run of `TestBlobs`. -/
theorem GetBlobKeyByObject_after_publish_witness :
    GetBlobKeyByObject (testStore .Published) "test-container" "2024-01-02T01:02:03Z"
        "test-object.txt" = (testChecksum, .nil) :=
  GetBlobKeyByObject_after_publish lenientPolicy "test-container" "test-object.txt"
    testChecksum "text/plain" "2024-01-02T01:02:03Z" "2024-01-02T01:02:03Z" 15
    ⟨["test-container"], [], [], []⟩
    ⟨["test-container"], [⟨"test-container", "2024-01-02T01:02:03Z", .Draft⟩], [], []⟩
    ⟨["test-container"], [⟨"test-container", "2024-01-02T01:02:03Z", .Draft⟩], [],
      [⟨testChecksum, 15, "text/plain"⟩]⟩
    (testStore .Draft) (testStore .Published)
    (by decide) (by decide) (by decide) (by decide) (by decide)

theorem filter_checksum_eq_singleton (l : List BlobRow) (b : BlobRow)
    (hnd : (l.map (fun x => x.checksum)).Nodup) (hb : b ∈ l) :
    l.filter (fun x => decide (x.checksum = b.checksum)) = [b] := by
  induction l with
  | nil => cases hb
  | cons a l ih =>
    rw [List.map_cons, List.nodup_cons] at hnd
    rcases List.mem_cons.1 hb with rfl | hb
    · have hrest : l.filter (fun x => decide (x.checksum = b.checksum)) = [] := by
        rw [List.filter_eq_nil_iff]
        intro x hx hxc
        exact hnd.1 (List.mem_map.2 ⟨x, hx, of_decide_eq_true hxc⟩)
      simp [List.filter_cons, hrest]
    · have hne : a.checksum ≠ b.checksum := by
        intro he
        exact hnd.1 (List.mem_map.2 ⟨b, hb, he.symm⟩)
      simp [List.filter_cons, hne, ih hnd.2 hb]

/-- C6: when a blob with checksum `checksum` already exists (once, as the blob ledger
keeps it), `CreateBLOB` with that checksum returns no error, exactly one blob is stored
for the checksum afterwards, and it is the existing one, its size and media type
unchanged. -/
theorem CreateBLOB_idempotent (s : Store) (checksum mimeType : String) (size : Nat)
    (b : BlobRow) (hinv : s.blobsUnique) (hb : b ∈ s.blobs) (hc : b.checksum = checksum) :
    (CreateBLOB s checksum size mimeType).2 = .nil ∧
      (CreateBLOB s checksum size mimeType).1.blobs.filter
        (fun x => decide (x.checksum = checksum)) = [b] ∧
      (CreateBLOB s checksum size mimeType).1 = s := by
  have hany : s.blobs.any (fun x => decide (x.checksum = checksum)) = true :=
    List.any_eq_true.2 ⟨b, hb, decide_eq_true hc⟩
  have hs : CreateBLOB s checksum size mimeType = (s, .nil) := by
    simp only [CreateBLOB, hany, if_true]
  rw [hs]
  refine ⟨rfl, ?_, rfl⟩
  subst hc
  exact filter_checksum_eq_singleton s.blobs b hinv hb

/-- C6 on the repository of `TestBlobs`, creating its blob again with another size and
media type. -/
theorem CreateBLOB_idempotent_witness :
    (CreateBLOB (testStore .Draft) testChecksum 99 "image/png").2 = .nil ∧
      (CreateBLOB (testStore .Draft) testChecksum 99 "image/png").1.blobs.filter
        (fun x => decide (x.checksum = testChecksum)) = [⟨testChecksum, 15, "text/plain"⟩] ∧
      (CreateBLOB (testStore .Draft) testChecksum 99 "image/png").1 = testStore .Draft :=
  CreateBLOB_idempotent (testStore .Draft) testChecksum "image/png" 99
    ⟨testChecksum, 15, "text/plain"⟩ (by decide) (by decide) rfl

/-- The operation `CreateBLOB` keeps the deduplication invariant, whether or not the
checksum is already stored. -/
theorem CreateBLOB_blobsUnique (s : Store) (checksum mimeType : String) (size : Nat)
    (hinv : s.blobsUnique) : (CreateBLOB s checksum size mimeType).1.blobsUnique := by
  unfold CreateBLOB
  split
  · exact hinv
  · rename_i hany
    unfold Store.blobsUnique at hinv ⊢
    simp only [List.map_append, List.map_cons, List.map_nil]
    rw [List.nodup_append]
    refine ⟨hinv, List.nodup_singleton _, ?_⟩
    intro x hx hx1
    rw [List.mem_singleton] at hx1
    subst hx1
    obtain ⟨b, hb, hbc⟩ := List.mem_map.1 hx
    exact hany (List.any_eq_true.2 ⟨b, hb, decide_eq_true hbc⟩)

end Archived
